import Mathlib

/-!
Verification of the server actions of the nextjs_dashboard repository
(src/app/lib/actions.ts): the zod `FormSchema` and its create/update
variants, the `createInvoice`, `updateInvoice` and `deleteInvoice`
handlers with the SQL statements they issue, and the `authenticate`
handler's error classification.

Numbers are modelled as exact rationals (JavaScript numbers on the
inputs appearing here are exactly representable or irrelevant to the
claim being settled); `NaN` is modelled as `none` of `Option ℚ`.
-/

/-- A value extracted from a `FormData` carrier: `FormData.get` returns
the field's string when the field is present and `null` (here `none`)
when it is missing.  The invoice forms submit only string fields. -/
abbrev FormValue := Option String

/-- The raw carrier handed to `CreateInvoice.safeParse` /
`UpdateInvoice.safeParse`: the three fields the handlers extract from
the form. -/
structure RawForm where
  customerId : FormValue
  amount : FormValue
  status : FormValue
deriving DecidableEq, Repr

/-- Whitespace stripped by the JavaScript `Number()` conversion (space,
tab, line terminators, form feed, vertical tab, NBSP, BOM). -/
def isJsSpace (c : Char) : Bool :=
  c = ' ' || c = '\t' || c = '\n' || c = '\r' ||
  c.toNat = 11 || c.toNat = 12 || c.toNat = 0xa0 || c.toNat = 0xfeff

/-- Leading decimal digits of a character list, as digit values, with
the rest of the list. -/
def takeDigits : List Char → List Nat × List Char
  | [] => ([], [])
  | c :: cs =>
    if c.isDigit then
      let p := takeDigits cs
      (((c.toNat - 48) :: p.1), p.2)
    else
      ([], c :: cs)

/-- The natural number written by a list of digit values. -/
def natOfDigits (ds : List Nat) : Nat :=
  ds.foldl (fun a d => 10 * a + d) 0

/-- Exponent suffix `digits` (after `e`/`E` and an optional sign):
fails when no digit or trailing garbage remains. -/
def expValue (ds : List Char) : Option Nat :=
  let p := takeDigits ds
  if p.1.isEmpty || !p.2.isEmpty then none else some (natOfDigits p.1)

/-- Unsigned decimal core of a JavaScript numeric string:
`digits [. digits] [(e|E) [sign] digits]` with at least one mantissa
digit, yielding its exact rational value (the mantissa digits over
`10 ^ (number of fraction digits)`, scaled by the exponent).
(Hexadecimal, octal, binary and `Infinity` literal forms are outside
this model; no input of the specification uses them.) -/
def parseDecCore (cs : List Char) : Option ℚ :=
  let ip := takeDigits cs
  let fp : List Nat × List Char :=
    match ip.2 with
    | '.' :: rest => takeDigits rest
    | _ => (([] : List Nat), ip.2)
  if ip.1.isEmpty && fp.1.isEmpty then none
  else
    let num : Nat := natOfDigits (ip.1 ++ fp.1)
    let den : Nat := 10 ^ fp.1.length
    match fp.2 with
    | [] => some (mkRat num den)
    | e :: rest =>
      if e = 'e' || e = 'E' then
        match rest with
        | '+' :: ds => (expValue ds).map (fun n => mkRat (num * 10 ^ n) den)
        | '-' :: ds => (expValue ds).map (fun n => mkRat num (den * 10 ^ n))
        | ds => (expValue ds).map (fun n => mkRat (num * 10 ^ n) den)
      else none

/-- Optional sign in front of the decimal core. -/
def parseSigned : List Char → Option ℚ
  | '+' :: cs => parseDecCore cs
  | '-' :: cs => (parseDecCore cs).map (fun q => -q)
  | cs => parseDecCore cs

deriving instance DecidableEq for Except

/-- JavaScript `Number(s)` on a string: trim whitespace, the empty
string is `0`, otherwise the signed decimal value, `none` for `NaN`. -/
def jsNumber (s : String) : Option ℚ :=
  let cs := ((s.data.dropWhile isJsSpace).reverse.dropWhile isJsSpace).reverse
  if cs.isEmpty then some 0 else parseSigned cs

/-- `z.coerce.number()` applies `Number()` to the raw value before the
number checks; `Number(null) = 0`, so a missing field coerces to `0`. -/
def coerceNumber : FormValue → Option ℚ
  | none => some 0
  | some s => jsNumber s

/-- Message of `z.string(\x7b invalid_type_error \x7d)` for `customerId`. -/
def selectCustomerMsg : String := "PLEASE SELECT A CUSTOMER."

/-- Message of the `.gt(0, \x7b message \x7d)` check on `amount`. -/
def amountGtMsg : String := "PLEASE ENTER AN AMOUNT GREATER THAN $0."

/-- zod's default `invalid_type` message when `Number()` coercion of
`amount` yields `NaN` (the custom message is attached only to the
`.gt(0)` check). -/
def amountNanMsg : String := "Expected number, received nan"

/-- Message of `z.enum(..., \x7b invalid_type_error \x7d)` for `status`;
zod routes both `invalid_type` and `invalid_enum_value` issues to it. -/
def selectStatusMsg : String := "PLEASE SELECT AN INVOICE STATUS."

/-- The `status` enumeration of `FormSchema`. -/
inductive Status where
  | pending
  | paid
deriving DecidableEq, Repr

/-- The string a `Status` takes as an SQL parameter. -/
def statusStr : Status → String
  | .pending => "pending"
  | .paid => "paid"

/-- `z.string(\x7b invalid_type_error: 'PLEASE SELECT A CUSTOMER.' \x7d)`:
any string passes (the empty string included); `null` is an invalid
type. -/
def checkCustomerId : FormValue → Except (List String) String
  | some s => .ok s
  | none => .error [selectCustomerMsg]

/-- `z.coerce.number().gt(0, ...)`: coerce via `Number()`, fail the type
check on `NaN`, then require the value strictly greater than `0`. -/
def checkAmount (v : FormValue) : Except (List String) ℚ :=
  match coerceNumber v with
  | none => .error [amountNanMsg]
  | some q => if 0 < q then .ok q else .error [amountGtMsg]

/-- `z.enum(['pending', 'paid'], ...)`: exactly those two strings. -/
def checkStatus : FormValue → Except (List String) Status
  | some s =>
    if s = "pending" then .ok .pending
    else if s = "paid" then .ok .paid
    else .error [selectStatusMsg]
  | none => .error [selectStatusMsg]

/-- Field-to-messages mapping of `error.flatten().fieldErrors` for the
create/update variants of the schema. -/
structure FieldErrors where
  customerId : Option (List String) := none
  amount : Option (List String) := none
  status : Option (List String) := none
deriving DecidableEq, Repr

/-- The normalized record a successful parse produces. -/
structure InvoiceFields where
  customerId : String
  amount : ℚ
  status : Status
deriving DecidableEq, Repr

/-- The error slot a field contributes to `fieldErrors`. -/
def errsOf {α : Type} : Except (List String) α → Option (List String)
  | .error e => some e
  | .ok _ => none

/-- `FormSchema.omit(\x7b id: true, date: true \x7d).safeParse`: validate the
three remaining fields, collecting every field's errors, and succeed
exactly when all three pass. -/
def formSchemaOmitIdDate (f : RawForm) : Except FieldErrors InvoiceFields :=
  match checkCustomerId f.customerId, checkAmount f.amount, checkStatus f.status with
  | .ok c, .ok a, .ok s => .ok ⟨c, a, s⟩
  | rc, ra, rs => .error ⟨errsOf rc, errsOf ra, errsOf rs⟩

/-- `const CreateInvoice = FormSchema.omit(\x7b id: true, date: true \x7d)`. -/
def CreateInvoice : RawForm → Except FieldErrors InvoiceFields :=
  formSchemaOmitIdDate

/-- `const UpdateInvoice = FormSchema.omit(\x7b id: true, date: true \x7d)`. -/
def UpdateInvoice : RawForm → Except FieldErrors InvoiceFields :=
  formSchemaOmitIdDate

/-- The `State` result shape of the invoice handlers. -/
structure State where
  errors : Option FieldErrors := none
  message : Option String := none
deriving DecidableEq, Repr

/-- The parameters of the INSERT statement
`INSERT INTO invoices (customer_id, amount, status, date) VALUES (?, ?, ?, ?)`. -/
structure InsertStmt where
  customer_id : String
  amount : ℚ
  status : String
  date : String
deriving DecidableEq, Repr

/-- The parameters of the UPDATE statement
`UPDATE invoices SET customer_id = ?, amount = ?, status = ? WHERE id = ?`. -/
structure UpdateStmt where
  id : String
  customer_id : String
  amount : ℚ
  status : String
deriving DecidableEq, Repr

/-- The parameter of `DELETE FROM invoices WHERE id = ?`. -/
structure DeleteStmt where
  id : String
deriving DecidableEq, Repr

/-- How control leaves a handler: an ordinary `return` of a value, a
`redirect(path)` (which aborts the handler without a return value), or
an uncaught thrown error. -/
inductive HandlerOutcome (α : Type) where
  | returned (v : α)
  | redirected (path : String)
  | threw (e : String)
deriving DecidableEq, Repr

/-- The cache key and redirect target of the invoice handlers. -/
def invoicesPath : String := "/dashboard/invoices"

/-- Validation-failure message of `createInvoice`. -/
def missingCreateMsg : String := "MISSING FIELDS. FAILED TO CREATE INVOICE."

/-- Validation-failure message of `updateInvoice`. -/
def missingUpdateMsg : String := "MISSING FIELDS. FAILED TO UPDATE INVOICE."

/-- Store-failure message of `createInvoice`. -/
def dbCreateMsg : String := "DATABASE ERROR: FAILED TO CREATE INVOICE."

/-- Store-failure message of `updateInvoice`. -/
def dbUpdateMsg : String := "DATABASE ERROR: FAILED TO UPDATE INVOICE."

/-- Store-failure message of `deleteInvoice`. -/
def dbDeleteMsg : String := "DATABASE ERROR: FAILED TO DELETE INVOICE."

/-- Success message of `deleteInvoice`. -/
def deletedMsg : String := "DELETED INVOICE."

/-- One run of `createInvoice`: the INSERT statements issued to the
store, the paths passed to `revalidatePath`, and how control left. -/
structure CreateRun where
  stmts : List InsertStmt := []
  revalidated : List String := []
  outcome : HandlerOutcome State
deriving DecidableEq, Repr

/-- One run of `updateInvoice`. -/
structure UpdateRun where
  stmts : List UpdateStmt := []
  revalidated : List String := []
  outcome : HandlerOutcome State
deriving DecidableEq, Repr

/-- One run of `deleteInvoice`. -/
structure DeleteRun where
  stmts : List DeleteStmt := []
  revalidated : List String := []
  outcome : HandlerOutcome State
deriving DecidableEq, Repr

/-- `createInvoice(prevState, formData)`.  `today` stands for
`new Date().toISOString().split('T')[0]` (the current date as
`YYYY-MM-DD`); `dbOk` is whether the store accepts the INSERT or
raises.  Validation failure returns the field errors early; a store
error is caught and turned into a message; on success the handler
revalidates the invoices path and redirects. -/
def createInvoice (today : String) (dbOk : Bool) (prevState : State) (formData : RawForm) :
    CreateRun :=
  match CreateInvoice formData with
  | .error e =>
    { outcome := .returned { errors := some e, message := some missingCreateMsg } }
  | .ok d =>
    let amountInCents := d.amount * 100
    let stmt : InsertStmt := ⟨d.customerId, amountInCents, statusStr d.status, today⟩
    if dbOk then
      { stmts := [stmt], revalidated := [invoicesPath], outcome := .redirected invoicesPath }
    else
      { stmts := [stmt], outcome := .returned { message := some dbCreateMsg } }

/-- `updateInvoice(id, prevState, formData)`: same validation as
create; on success a single UPDATE of `customer_id`, `amount`, `status`
on the row matching `id` (the `date` column is not mentioned). -/
def updateInvoice (dbOk : Bool) (id : String) (prevState : State) (formData : RawForm) :
    UpdateRun :=
  match UpdateInvoice formData with
  | .error e =>
    { outcome := .returned { errors := some e, message := some missingUpdateMsg } }
  | .ok d =>
    let amountInCents := d.amount * 100
    let stmt : UpdateStmt := ⟨id, d.customerId, amountInCents, statusStr d.status⟩
    if dbOk then
      { stmts := [stmt], revalidated := [invoicesPath], outcome := .redirected invoicesPath }
    else
      { stmts := [stmt], outcome := .returned { message := some dbUpdateMsg } }

/-- `deleteInvoice(id)`: a single DELETE; on store success revalidate
and return the deletion message (no redirect), on store failure return
the database-error message; nothing escapes the try/catch. -/
def deleteInvoice (dbOk : Bool) (id : String) : DeleteRun :=
  if dbOk then
    { stmts := [⟨id⟩], revalidated := [invoicesPath],
      outcome := .returned { message := some deletedMsg } }
  else
    { stmts := [⟨id⟩], outcome := .returned { message := some dbDeleteMsg } }

/-- A row of the `invoices` table. -/
structure Row where
  id : String
  customer_id : String
  amount : ℚ
  status : String
  date : String
deriving DecidableEq, Repr

/-- Store semantics of `UPDATE invoices SET customer_id = ?, amount = ?,
status = ? WHERE id = ?`: rows matching the id get the three listed
columns replaced, every other column and row is untouched. -/
def runUpdate (s : UpdateStmt) (db : List Row) : List Row :=
  db.map fun r =>
    if r.id = s.id then
      { r with customer_id := s.customer_id, amount := s.amount, status := s.status }
    else r

/-- Store semantics of `DELETE FROM invoices WHERE id = ?`: matching
rows are removed; the statement succeeds (zero rows affected) when none
match. -/
def runDelete (s : DeleteStmt) (db : List Row) : List Row :=
  db.filter fun r => r.id ≠ s.id

/-- Authentication message for `case 'CredentialsSignin'`. -/
def invalidCredsMsg : String := "INVALID CREDENTIALS."

/-- Authentication message of the `default` branch. -/
def wentWrongMsg : String := "SOMETHING WENT WRONG."

/-- What `signIn('credentials', formData)` did: returned normally,
threw an `AuthError` carrying a `type` discriminator, or threw a value
outside the `AuthError` family (such as the framework's redirect
signal), carried here as an opaque string. -/
inductive SignInResult where
  | success
  | authError (type : String)
  | otherError (e : String)
deriving DecidableEq, Repr

/-- `authenticate(prevState, formData)`: returns a string message, or
no value (success), or rethrows. -/
def authenticate (prevState : Option String) (res : SignInResult) :
    HandlerOutcome (Option String) :=
  match res with
  | .success => .returned none
  | .authError t =>
    if t = "CredentialsSignin" then .returned (some invalidCredsMsg)
    else .returned (some wentWrongMsg)
  | .otherError e => .threw e

/-! ## Helper lemmas -/

lemma createInvoice_parse_error (today : String) (dbOk : Bool) (prev : State)
    (f : RawForm) (e : FieldErrors) (h : CreateInvoice f = .error e) :
    createInvoice today dbOk prev f =
      { outcome := .returned { errors := some e, message := some missingCreateMsg } } := by
  simp [createInvoice, h]

lemma updateInvoice_parse_error (dbOk : Bool) (id : String) (prev : State)
    (f : RawForm) (e : FieldErrors) (h : UpdateInvoice f = .error e) :
    updateInvoice dbOk id prev f =
      { outcome := .returned { errors := some e, message := some missingUpdateMsg } } := by
  simp [updateInvoice, h]

lemma createInvoice_parse_ok (today : String) (prev : State)
    (f : RawForm) (d : InvoiceFields) (h : CreateInvoice f = .ok d) (dbOk : Bool) :
    createInvoice today dbOk prev f =
      if dbOk then
        { stmts := [⟨d.customerId, d.amount * 100, statusStr d.status, today⟩],
          revalidated := [invoicesPath], outcome := .redirected invoicesPath }
      else
        { stmts := [⟨d.customerId, d.amount * 100, statusStr d.status, today⟩],
          outcome := .returned { message := some dbCreateMsg } } := by
  cases dbOk <;> simp [createInvoice, h]

lemma updateInvoice_parse_ok (id : String) (prev : State)
    (f : RawForm) (d : InvoiceFields) (h : UpdateInvoice f = .ok d) (dbOk : Bool) :
    updateInvoice dbOk id prev f =
      if dbOk then
        { stmts := [⟨id, d.customerId, d.amount * 100, statusStr d.status⟩],
          revalidated := [invoicesPath], outcome := .redirected invoicesPath }
      else
        { stmts := [⟨id, d.customerId, d.amount * 100, statusStr d.status⟩],
          outcome := .returned { message := some dbUpdateMsg } } := by
  cases dbOk <;> simp [updateInvoice, h]

lemma formSchema_amount_error (f : RawForm) (msgs : List String)
    (h : checkAmount f.amount = .error msgs) :
    formSchemaOmitIdDate f =
      .error ⟨errsOf (checkCustomerId f.customerId), some msgs, errsOf (checkStatus f.status)⟩ := by
  cases hc : checkCustomerId f.customerId <;> cases hs : checkStatus f.status <;>
    simp [formSchemaOmitIdDate, hc, hs, h, errsOf]

lemma formSchema_customerId_error (f : RawForm) (msgs : List String)
    (h : checkCustomerId f.customerId = .error msgs) :
    formSchemaOmitIdDate f =
      .error ⟨some msgs, errsOf (checkAmount f.amount), errsOf (checkStatus f.status)⟩ := by
  cases ha : checkAmount f.amount <;> cases hs : checkStatus f.status <;>
    simp [formSchemaOmitIdDate, ha, hs, h, errsOf]

lemma formSchema_status_error (f : RawForm) (msgs : List String)
    (h : checkStatus f.status = .error msgs) :
    formSchemaOmitIdDate f =
      .error ⟨errsOf (checkCustomerId f.customerId), errsOf (checkAmount f.amount), some msgs⟩ := by
  cases hc : checkCustomerId f.customerId <;> cases ha : checkAmount f.amount <;>
    simp [formSchemaOmitIdDate, hc, ha, h, errsOf]

lemma checkAmount_nonpos (v : FormValue) (q : ℚ) (hq : coerceNumber v = some q)
    (hle : q ≤ 0) : checkAmount v = .error [amountGtMsg] := by
  simp [checkAmount, hq, not_lt.mpr hle]

lemma checkAmount_nan (v : FormValue) (hq : coerceNumber v = none) :
    checkAmount v = .error [amountNanMsg] := by
  simp [checkAmount, hq]

lemma checkStatus_invalid (v : FormValue) (h1 : v ≠ some "pending") (h2 : v ≠ some "paid") :
    checkStatus v = .error [selectStatusMsg] := by
  cases v with
  | none => rfl
  | some s =>
    have hs1 : s ≠ "pending" := by intro hh; exact h1 (by rw [hh])
    have hs2 : s ≠ "paid" := by intro hh; exact h2 (by rw [hh])
    simp [checkStatus, hs1, hs2]

/-! ## Claim theorems -/

/-- C1: for the create handler, the form carrier with
customerId = "3958dc9e-712f-4377-85e9-fec4b6a6442a", amount = "250",
status = "paid" passes validation, and with a working store the handler
issues exactly one INSERT carrying amount 25000 (the validated amount
times 100), status "paid" and the current date, then revalidates the
invoices-list path and redirects without returning a value. -/
theorem createInvoice_round_trip (today : String) (prev : State) :
    CreateInvoice ⟨some "3958dc9e-712f-4377-85e9-fec4b6a6442a", some "250", some "paid"⟩ =
      .ok ⟨"3958dc9e-712f-4377-85e9-fec4b6a6442a", 250, .paid⟩ ∧
    createInvoice today true prev
        ⟨some "3958dc9e-712f-4377-85e9-fec4b6a6442a", some "250", some "paid"⟩ =
      { stmts := [⟨"3958dc9e-712f-4377-85e9-fec4b6a6442a", 25000, "paid", today⟩],
        revalidated := [invoicesPath],
        outcome := .redirected invoicesPath } := by
  have h : CreateInvoice ⟨some "3958dc9e-712f-4377-85e9-fec4b6a6442a", some "250", some "paid"⟩ =
      .ok ⟨"3958dc9e-712f-4377-85e9-fec4b6a6442a", 250, .paid⟩ := by decide
  have hm : (250 : ℚ) * 100 = 25000 := by norm_num
  refine ⟨h, ?_⟩
  simpa [statusStr, hm] using createInvoice_parse_ok today prev _ _ h true

/-- C2 as stated is false: an amount that does not coerce to a number
fails validation with zod's default invalid-type message, not the
"greater than $0" message (which is attached only to the `.gt(0)`
check).  Concretely amount = "abc". -/
theorem amount_nonnumeric_message_cex :
    CreateInvoice ⟨some "3958dc9e-712f-4377-85e9-fec4b6a6442a", some "abc", some "paid"⟩ =
      .error ⟨none, some [amountNanMsg], none⟩ ∧
    amountNanMsg ≠ amountGtMsg := by
  exact ⟨by decide, by decide⟩

/-- C2 (amended): an amount that coerces to a value less than or equal
to 0 fails create/update validation with a field-level amount error
carrying the "greater than $0" message; an amount that does not coerce
fails with a field-level amount error carrying zod's invalid-type
message; in either case a validation error means no store statement is
issued.  amount = "0" and "-5" fail, "0.01" passes. -/
theorem amount_validation_rejects_nonpositive (f : RawForm) (today id : String)
    (dbOk : Bool) (prev : State) :
    (coerceNumber f.amount = none →
      CreateInvoice f = .error
        ⟨errsOf (checkCustomerId f.customerId), some [amountNanMsg], errsOf (checkStatus f.status)⟩ ∧
      UpdateInvoice f = .error
        ⟨errsOf (checkCustomerId f.customerId), some [amountNanMsg], errsOf (checkStatus f.status)⟩) ∧
    (∀ q : ℚ, coerceNumber f.amount = some q → q ≤ 0 →
      CreateInvoice f = .error
        ⟨errsOf (checkCustomerId f.customerId), some [amountGtMsg], errsOf (checkStatus f.status)⟩) ∧
    (∀ e : FieldErrors, CreateInvoice f = .error e →
      (createInvoice today dbOk prev f).stmts = [] ∧ (updateInvoice dbOk id prev f).stmts = []) ∧
    checkAmount (some "0") = .error [amountGtMsg] ∧
    checkAmount (some "-5") = .error [amountGtMsg] ∧
    checkAmount (some "0.01") = .ok (mkRat 1 100) := by
  refine ⟨fun h => ?_, fun q hq hle => ?_, fun e he => ?_, by decide, by decide, by decide⟩
  · have hp := formSchema_amount_error f _ (checkAmount_nan f.amount h)
    exact ⟨hp, hp⟩
  · exact formSchema_amount_error f _ (checkAmount_nonpos f.amount q hq hle)
  · rw [createInvoice_parse_error today dbOk prev f e he,
      updateInvoice_parse_error dbOk id prev f e he]
    exact ⟨rfl, rfl⟩

/-- C2 witness: amount "0" coerces to 0 and is rejected with the
"greater than $0" message. -/
theorem amount_validation_rejects_nonpositive_witness :
    CreateInvoice ⟨some "cust", some "0", some "paid"⟩ =
      .error ⟨errsOf (checkCustomerId (some "cust")), some [amountGtMsg],
        errsOf (checkStatus (some "paid"))⟩ :=
  (amount_validation_rejects_nonpositive ⟨some "cust", some "0", some "paid"⟩
    "2024-01-01" "id1" true ⟨none, none⟩).2.1 0 (by decide) (by decide)

/-- C3 as stated is false: an empty-string customerId passes
`z.string()` (which does not require non-emptiness), so the create
handler issues an INSERT instead of returning a customerId error. -/
theorem customerId_empty_accepted_cex :
    CreateInvoice ⟨some "", some "250", some "paid"⟩ = .ok ⟨"", 250, .paid⟩ ∧
    (createInvoice "2024-02-03" true ⟨none, none⟩ ⟨some "", some "250", some "paid"⟩).stmts ≠
      [] := by
  have h : CreateInvoice ⟨some "", some "250", some "paid"⟩ = .ok ⟨"", 250, .paid⟩ := by decide
  refine ⟨h, ?_⟩
  rw [createInvoice_parse_ok _ _ _ _ h true]
  simp

/-- C3 (amended): a missing (null) customerId makes create and update
validation fail with the field-level customerId error, the handlers
return the errors without issuing any store statement; an empty string
customerId, however, passes validation. -/
theorem customerId_missing_rejected (f : RawForm) (today id : String) (dbOk : Bool)
    (prev : State) (h : f.customerId = none) :
    CreateInvoice f = .error
      ⟨some [selectCustomerMsg], errsOf (checkAmount f.amount), errsOf (checkStatus f.status)⟩ ∧
    createInvoice today dbOk prev f =
      { outcome := .returned
          { errors := some ⟨some [selectCustomerMsg], errsOf (checkAmount f.amount),
              errsOf (checkStatus f.status)⟩,
            message := some missingCreateMsg } } ∧
    updateInvoice dbOk id prev f =
      { outcome := .returned
          { errors := some ⟨some [selectCustomerMsg], errsOf (checkAmount f.amount),
              errsOf (checkStatus f.status)⟩,
            message := some missingUpdateMsg } } := by
  have hc : checkCustomerId f.customerId = .error [selectCustomerMsg] := by rw [h]; rfl
  have hp := formSchema_customerId_error f _ hc
  exact ⟨hp, createInvoice_parse_error _ _ _ _ _ hp, updateInvoice_parse_error _ _ _ _ _ hp⟩

/-- C3 witness: a form with no customerId field is rejected with the
customerId field error and no INSERT. -/
theorem customerId_missing_rejected_witness :
    createInvoice "2024-02-04" true ⟨none, none⟩ ⟨none, some "250", some "paid"⟩ =
      { outcome := .returned
          { errors := some ⟨some [selectCustomerMsg], errsOf (checkAmount (some "250")),
              errsOf (checkStatus (some "paid"))⟩,
            message := some missingCreateMsg } } :=
  (customerId_missing_rejected ⟨none, some "250", some "paid"⟩ "2024-02-04" "id2" true
    ⟨none, none⟩ rfl).2.1

/-- C4: a status that is neither "pending" nor "paid" (a missing one
included) makes create and update validation fail with the field-level
status error carrying the "select an invoice status" message, and no
store statement is issued on a validation error. -/
theorem status_invalid_rejected (f : RawForm) (today id : String) (dbOk : Bool)
    (prev : State) (h1 : f.status ≠ some "pending") (h2 : f.status ≠ some "paid") :
    CreateInvoice f = .error
      ⟨errsOf (checkCustomerId f.customerId), errsOf (checkAmount f.amount), some [selectStatusMsg]⟩ ∧
    UpdateInvoice f = .error
      ⟨errsOf (checkCustomerId f.customerId), errsOf (checkAmount f.amount), some [selectStatusMsg]⟩ ∧
    (∀ e : FieldErrors, CreateInvoice f = .error e →
      (createInvoice today dbOk prev f).stmts = [] ∧ (updateInvoice dbOk id prev f).stmts = []) := by
  have hp := formSchema_status_error f _ (checkStatus_invalid f.status h1 h2)
  refine ⟨hp, hp, fun e he => ?_⟩
  rw [createInvoice_parse_error today dbOk prev f e he,
    updateInvoice_parse_error dbOk id prev f e he]
  exact ⟨rfl, rfl⟩

/-- C4 witness: status "overdue" is rejected with the status error. -/
theorem status_invalid_rejected_witness :
    CreateInvoice ⟨some "c9", some "5", some "overdue"⟩ = .error
      ⟨errsOf (checkCustomerId (some "c9")), errsOf (checkAmount (some "5")),
        some [selectStatusMsg]⟩ :=
  (status_invalid_rejected ⟨some "c9", some "5", some "overdue"⟩ "2024-02-05" "id3" true
    ⟨none, none⟩ (by decide) (by decide)).1

/-- C5 as stated is false: amount "0.001" passes validation (it is
greater than 0) but the value sent to the store, amount times 100, is
1/10, which is not an integer, so the stored amount is not always an
integer count of minor units. -/
theorem amount_times100_not_integer_cex :
    CreateInvoice ⟨some "c1", some "0.001", some "paid"⟩ = .ok ⟨"c1", mkRat 1 1000, .paid⟩ ∧
    (createInvoice "2024-03-04" true ⟨none, none⟩ ⟨some "c1", some "0.001", some "paid"⟩).stmts =
      [⟨"c1", mkRat 1 1000 * 100, "paid", "2024-03-04"⟩] ∧
    (mkRat 1 1000 * (100 : ℚ)).den ≠ 1 := by
  have h : CreateInvoice ⟨some "c1", some "0.001", some "paid"⟩ =
      .ok ⟨"c1", mkRat 1 1000, .paid⟩ := by decide
  refine ⟨h, ?_, ?_⟩
  · rw [createInvoice_parse_ok _ _ _ _ h true]
    simp [statusStr]
  · have hq : mkRat 1 1000 * (100 : ℚ) = mkRat 1 10 := by norm_num [mkRat, Rat.normalize]
    rw [hq]
    decide

/-- C5 (amended): the value sent to the store by create and update is
exactly the validated amount times 100, with no rounding; it is an
integer precisely when the validated amount is an integral multiple of
1/100, which validation does not enforce. -/
theorem amount_times100_exact (f : RawForm) (d : InvoiceFields) (today id : String)
    (prev : State) (h : CreateInvoice f = .ok d) :
    (createInvoice today true prev f).stmts =
      [⟨d.customerId, d.amount * 100, statusStr d.status, today⟩] ∧
    (updateInvoice true id prev f).stmts =
      [⟨id, d.customerId, d.amount * 100, statusStr d.status⟩] ∧
    (∀ n : ℤ, d.amount = (n : ℚ) / 100 → (d.amount * 100).den = 1) ∧
    ((d.amount * 100).den = 1 → d.amount = ((d.amount * 100).num : ℚ) / 100) := by
  refine ⟨?_, ?_, fun n hn => ?_, fun hden => ?_⟩
  · rw [createInvoice_parse_ok _ _ _ _ h true]
    simp
  · rw [updateInvoice_parse_ok _ _ _ _ h true]
    simp
  · rw [hn, div_mul_cancel₀ _ (by norm_num : (100 : ℚ) ≠ 0)]
    simp
  · have hnum : ((d.amount * 100).num : ℚ) = d.amount * 100 := by
      conv_rhs => rw [← Rat.num_div_den (d.amount * 100)]
      rw [hden]
      simp
    rw [hnum]
    exact (mul_div_cancel_right₀ d.amount (by norm_num : (100 : ℚ) ≠ 0)).symm

/-- C5 witness: for the valid amount "250" the INSERT and UPDATE carry
exactly 250 times 100. -/
theorem amount_times100_exact_witness :
    (createInvoice "2024-05-06" true ⟨none, none⟩ ⟨some "c2", some "250", some "paid"⟩).stmts =
      [⟨"c2", (250 : ℚ) * 100, statusStr .paid, "2024-05-06"⟩] :=
  (amount_times100_exact ⟨some "c2", some "250", some "paid"⟩ ⟨"c2", 250, .paid⟩
    "2024-05-06" "idX" ⟨none, none⟩ (by decide)).1

/-- C6: on a successful update the single UPDATE statement sets exactly
customer_id, amount (the validated amount times 100) and status on the
rows matching the given id, and the date column of every row is the
same after the update as before; non-matching rows are unchanged. -/
theorem update_preserves_date (f : RawForm) (d : InvoiceFields) (id : String)
    (prev : State) (h : UpdateInvoice f = .ok d) :
    updateInvoice true id prev f =
      { stmts := [⟨id, d.customerId, d.amount * 100, statusStr d.status⟩],
        revalidated := [invoicesPath], outcome := .redirected invoicesPath } ∧
    (∀ db : List Row,
      (runUpdate ⟨id, d.customerId, d.amount * 100, statusStr d.status⟩ db).map Row.date =
        db.map Row.date) ∧
    (∀ db : List Row,
      (runUpdate ⟨id, d.customerId, d.amount * 100, statusStr d.status⟩ db).map Row.id =
        db.map Row.id) ∧
    (∀ (db : List Row) (r : Row), r ∈ db → r.id = id →
      { r with
          customer_id := d.customerId
          amount := d.amount * 100
          status := statusStr d.status } ∈
        runUpdate ⟨id, d.customerId, d.amount * 100, statusStr d.status⟩ db) ∧
    (∀ (db : List Row) (r : Row), r ∈ db → r.id ≠ id →
      r ∈ runUpdate ⟨id, d.customerId, d.amount * 100, statusStr d.status⟩ db) := by
  refine ⟨?_, ?_, ?_, ?_, ?_⟩
  · simpa using updateInvoice_parse_ok id prev f d h true
  · intro db
    simp only [runUpdate, List.map_map]
    apply List.map_congr_left
    intro r _
    by_cases hr : r.id = id <;> simp [hr]
  · intro db
    simp only [runUpdate, List.map_map]
    apply List.map_congr_left
    intro r _
    by_cases hr : r.id = id <;> simp [hr]
  · intro db r hr hid
    simp only [runUpdate, List.mem_map]
    exact ⟨r, hr, by simp [hid]⟩
  · intro db r hr hid
    simp only [runUpdate, List.mem_map]
    exact ⟨r, hr, by simp [hid]⟩

/-- C6 witness: the spec's update scenario (id "X", customerId "C2",
amount "10", status "pending") issues exactly that UPDATE. -/
theorem update_preserves_date_witness :
    updateInvoice true "X" ⟨none, none⟩ ⟨some "C2", some "10", some "pending"⟩ =
      { stmts := [⟨"X", "C2", (10 : ℚ) * 100, statusStr .pending⟩],
        revalidated := [invoicesPath], outcome := .redirected invoicesPath } :=
  (update_preserves_date ⟨some "C2", some "10", some "pending"⟩ ⟨"C2", 10, .pending⟩
    "X" ⟨none, none⟩ (by decide)).1

/-- C7: when the store raises, create and update catch the error and
return a state whose message is the corresponding database-error text
with the errors field absent, without revalidating or redirecting; and
no run of either handler ever ends in an uncaught throw. -/
theorem db_error_returns_message (f : RawForm) (d : InvoiceFields) (today id : String)
    (prev : State) (h : CreateInvoice f = .ok d) :
    createInvoice today false prev f =
      { stmts := [⟨d.customerId, d.amount * 100, statusStr d.status, today⟩],
        revalidated := [],
        outcome := .returned { errors := none, message := some dbCreateMsg } } ∧
    updateInvoice false id prev f =
      { stmts := [⟨id, d.customerId, d.amount * 100, statusStr d.status⟩],
        revalidated := [],
        outcome := .returned { errors := none, message := some dbUpdateMsg } } ∧
    (∀ (g : RawForm) (ok : Bool) (e : String),
      (createInvoice today ok prev g).outcome ≠ .threw e ∧
      (updateInvoice ok id prev g).outcome ≠ .threw e) := by
  refine ⟨?_, ?_, fun g ok e => ⟨?_, ?_⟩⟩
  · simpa using createInvoice_parse_ok today prev f d h false
  · simpa using updateInvoice_parse_ok id prev f d h false
  · cases hp : CreateInvoice g with
    | error e2 =>
      rw [createInvoice_parse_error today ok prev g e2 hp]
      simp
    | ok d2 =>
      rw [createInvoice_parse_ok today prev g d2 hp ok]
      cases ok <;> simp
  · cases hp : UpdateInvoice g with
    | error e2 =>
      rw [updateInvoice_parse_error ok id prev g e2 hp]
      simp
    | ok d2 =>
      rw [updateInvoice_parse_ok id prev g d2 hp ok]
      cases ok <;> simp

/-- C7 witness: on a failed INSERT for a valid form the handler returns
only the database-error message. -/
theorem db_error_returns_message_witness :
    createInvoice "2024-07-08" false ⟨none, none⟩ ⟨some "c3", some "250", some "paid"⟩ =
      { stmts := [⟨"c3", (250 : ℚ) * 100, statusStr .paid, "2024-07-08"⟩],
        revalidated := [],
        outcome := .returned { errors := none, message := some dbCreateMsg } } :=
  (db_error_returns_message ⟨some "c3", some "250", some "paid"⟩ ⟨"c3", 250, .paid⟩
    "2024-07-08" "idY" ⟨none, none⟩ (by decide)).1

/-- C8: authenticate returns no value when the delegated sign-in
succeeds, the invalid-credentials message on an AuthError of type
CredentialsSignin, the generic message on any other AuthError, and
re-raises unchanged any error outside the AuthError family. -/
theorem authenticate_error_classification (prev : Option String) :
    authenticate prev .success = .returned none ∧
    authenticate prev (.authError "CredentialsSignin") = .returned (some invalidCredsMsg) ∧
    (∀ t : String, t ≠ "CredentialsSignin" →
      authenticate prev (.authError t) = .returned (some wentWrongMsg)) ∧
    (∀ e : String, authenticate prev (.otherError e) = .threw e) := by
  refine ⟨rfl, by simp [authenticate], fun t ht => by simp [authenticate, ht], fun e => rfl⟩

/-- C8 witness: an AuthError of a different type yields the generic
message. -/
theorem authenticate_error_classification_witness :
    authenticate none (.authError "AccessDenied") = .returned (some wentWrongMsg) :=
  (authenticate_error_classification none).2.2.1 "AccessDenied" (by decide)

/-- C9: deleteInvoice issues a single DELETE for the given id; on store
success it revalidates the invoices path and returns the deleted
message without redirecting, on store failure it returns the
database-error message; it never throws, and the DELETE is idempotent
at the store (deleting an already-deleted id matches zero rows and
still succeeds). -/
theorem deleteInvoice_contract (id : String) (dbOk : Bool) :
    (deleteInvoice dbOk id).stmts = [⟨id⟩] ∧
    deleteInvoice true id =
      { stmts := [⟨id⟩], revalidated := [invoicesPath],
        outcome := .returned { errors := none, message := some deletedMsg } } ∧
    deleteInvoice false id =
      { stmts := [⟨id⟩], revalidated := [],
        outcome := .returned { errors := none, message := some dbDeleteMsg } } ∧
    (∀ e : String, (deleteInvoice dbOk id).outcome ≠ .threw e) ∧
    (∀ p : String, (deleteInvoice dbOk id).outcome ≠ .redirected p) ∧
    (∀ db : List Row, runDelete ⟨id⟩ (runDelete ⟨id⟩ db) = runDelete ⟨id⟩ db) := by
  refine ⟨?_, rfl, rfl, ?_, ?_, ?_⟩
  · cases dbOk <;> rfl
  · intro e
    cases dbOk <;> simp [deleteInvoice]
  · intro p
    cases dbOk <;> simp [deleteInvoice]
  · intro db
    simp [runDelete, List.filter_filter]

/-- C10: create and update validate with the same schema: the two
omitted variants accept exactly the same inputs and produce identical
results (field-error mappings included) on every raw form. -/
theorem create_update_same_schema (f : RawForm) :
    CreateInvoice f = UpdateInvoice f :=
  rfl
